import Mathlib

/-!
A shallow embedding of `cloudflare_logpush_setup.py` and proofs about its
behaviour.  Strings are Lean `String`s; Python `dict.get` with a possibly
missing key is modelled with `Option`; a Python function that may raise an
exception that is not caught inside it is modelled with `Except`.  HTTP
traffic is modelled by an environment function mapping each request to the
observed outcome: either a transport-level error (`requests` raises a
`RequestException`, which also covers `raise_for_status` on an error status
and JSON decoding failures, both subclasses) or a parsed JSON response.
-/

namespace Logpush

/-- A zone object as used by the script: only `id` and `name` are read. -/
structure Zone where
  id : String
  name : String
deriving DecidableEq, Repr

/-- One entry of a response's `errors` list.  The Python code accesses
`error['code']`; a missing `code` key is `none` here (the access raises
`KeyError`). -/
structure ApiErrorEntry where
  code : Option Int
deriving DecidableEq, Repr

/-- Exceptions that can escape an embedded function. -/
inductive PyExc where
  | keyError
deriving DecidableEq, Repr

/-- Outcome of one HTTP call to a logpush-job endpoint, as seen by the
script: a transport error (`requests.exceptions.RequestException`, which
includes timeouts, connection errors and `JSONDecodeError`), or a response
with a status code and the parsed JSON body's `success` flag and `errors`
list (`data.get('success')` absent ↦ `false`, `data.get('errors', [])`
absent ↦ `[]`). -/
inductive HttpOutcome where
  | transportError
  | response (status : Nat) (success : Bool) (errors : List ApiErrorEntry)
deriving DecidableEq, Repr

/-- Python truthiness of an optional string: `None` and `""` are falsy. -/
def truthy : Option String → Bool
  | none => false
  | some s => !s.data.isEmpty

/-- The environment-derived configuration of the script
(`CLOUDFLARE_API_TOKEN`, `LOGPUSH_ENDPOINT_URL`, `LOGPUSH_AUTH_HEADER`,
`LOGPUSH_DATASET`).  `LOGPUSH_DATASETS_RAW` is never `None`: `os.getenv`
is called with default `'http_requests'`. -/
structure Config where
  API_TOKEN : Option String
  DESTINATION_URL : Option String
  AUTH_HEADER : Option String
  LOGPUSH_DATASETS_RAW : String
deriving DecidableEq, Repr

/-- The allow-list of Zone-level datasets. -/
def VALID_ZONE_DATASETS : List String :=
  ["http_requests", "firewall_events", "dns_logs", "nel_reports", "spectrum_events"]

/-- Python `str.strip()` on the characters Python treats as ASCII
whitespace. -/
def pyIsSpace (c : Char) : Bool :=
  c = ' ' || c = '\t' || c = '\n' || c = '\r' || c = '\x0b' || c = '\x0c'

/-- `s.strip()`: drop leading and trailing whitespace. -/
def pyStrip (cs : List Char) : List Char :=
  ((cs.dropWhile pyIsSpace).reverse.dropWhile pyIsSpace).reverse

/-- `get_target_datasets`:
`[d.strip() for d in LOGPUSH_DATASETS_RAW.split(',') if d.strip()]`.
Python `str.split(',')` splits at every comma keeping empty pieces, which
is `List.splitOn ','` on the character list. -/
def get_target_datasets (raw : String) : List String :=
  ((raw.data.splitOn ',').filter (fun d => !(pyStrip d).isEmpty)).map
    (fun d => String.mk (pyStrip d))

/-- `validate_config`: returns the boolean result together with the printed
lines (stdout and stderr interleaved in program order). -/
def validate_config (cfg : Config) : Bool × List String :=
  if !truthy cfg.API_TOKEN then
    (false, ["Error: CLOUDFLARE_API_TOKEN environment variable is not set."])
  else if !truthy cfg.DESTINATION_URL then
    (false, ["Error: LOGPUSH_ENDPOINT_URL environment variable is not set."])
  else
    let target_datasets := get_target_datasets cfg.LOGPUSH_DATASETS_RAW
    let invalid_datasets := target_datasets.filter (fun d => !VALID_ZONE_DATASETS.contains d)
    if !invalid_datasets.isEmpty then
      (false,
        ["Error: Invalid LOGPUSH_DATASET(s) found: " ++ String.intercalate ", " invalid_datasets,
         "Valid options are: " ++ String.intercalate ", " VALID_ZONE_DATASETS])
    else
      (true,
        ["Configuration loaded successfully.",
         "Destination URL: " ++ cfg.DESTINATION_URL.getD "",
         "Datasets to configure: " ++ String.intercalate ", " target_datasets] ++
        (if truthy cfg.AUTH_HEADER then
           ["Using Authorization Header for log destination."]
         else
           ["No Authorization Header provided for log destination."]))

/-- The `destination_conf` string built by `create_logpush_job`:
start from `DESTINATION_URL` and, when `AUTH_HEADER` is truthy, append
`f"{separator}header_Authorization={AUTH_HEADER}"` where `separator` is
`'&'` if `'?' in destination_conf` else `'?'`.  Python `'?' in s` on a
single character is character membership. -/
def destination_conf (base : String) (auth : Option String) : String :=
  if truthy auth then
    let separator := if base.data.contains '?' then "&" else "?"
    base ++ (separator ++ "header_Authorization=" ++ auth.getD "")
  else base

/-- `zone_name.replace('.', '_')`: the pattern is a single character, so
this is a character map. -/
def replaceDots (s : String) : String :=
  String.mk (s.data.map (fun c => if c = '.' then '_' else c))

/-- The job name `f"logpush_{dataset}_{zone_name.replace('.', '_')}"`. -/
def job_name (dataset : String) (zone_name : String) : String :=
  "logpush_" ++ dataset ++ "_" ++ replaceDots zone_name

/-- `any(error['code'] == 1007 for error in errors)`: short-circuiting;
`error['code']` on an entry without a `code` key raises `KeyError`. -/
def anyCode1007 : List ApiErrorEntry → Except PyExc Bool
  | [] => .ok false
  | e :: rest =>
    match e.code with
    | none => .error .keyError
    | some c => if c = 1007 then .ok true else anyCode1007 rest

/-- The result classification of `create_logpush_job` as a function of the
HTTP outcome of its POST.  A `RequestException` (transport error, including
JSON decoding) is caught and yields `False`.  On HTTP 200/201 the result is
the body's `success` flag.  On HTTP 400 the duplicate-job check
`any(error['code'] == 1007 ...)` runs (it can raise `KeyError`, which is
not caught), and the function then returns `False` on *both* branches —
the `[SKIPPED]` branch only prints.  Any other status returns `False`. -/
def create_logpush_job (o : HttpOutcome) : Except PyExc Bool :=
  match o with
  | .transportError => .ok false
  | .response status success errors =>
    if status = 200 ∨ status = 201 then .ok success
    else if status = 400 then
      match anyCode1007 errors with
      | .error e => .error e
      | .ok _ => .ok false
    else .ok false

/-- `disable_logpush_job`: success iff HTTP 200 with a truthy `success`
flag; a `RequestException` is caught and yields `False`. -/
def disable_logpush_job (o : HttpOutcome) : Bool :=
  match o with
  | .transportError => false
  | .response status success _ => if status = 200 then success else false

/-- `delete_logpush_job`: same decision structure as disable. -/
def delete_logpush_job (o : HttpOutcome) : Bool :=
  match o with
  | .transportError => false
  | .response status success _ => if status = 200 then success else false

/-- Outcome of one `GET /zones` page request.  `transport` covers every
`requests.exceptions.RequestException`: network errors, timeouts, the
`HTTPError` raised by `raise_for_status()` on a non-2xx status, and JSON
decoding failures.  Otherwise the parsed body carries the `success` flag,
the `result` list and `result_info.total_pages` (`none` when the key is
absent; the code then defaults it to 1). -/
inductive ZonePageResp where
  | transport
  | body (success : Bool) (result : List Zone) (total_pages : Option Nat)
deriving DecidableEq, Repr

/-- One iteration step of the `while True` pagination loop of
`get_all_zones`, with an explicit fuel bound standing for the (possibly
unbounded) number of iterations the Python loop performs.  The first
component records every request issued as `(page, per_page)`; the second is
`some zones` when the loop returned and `none` when the fuel ran out before
the loop did. -/
def get_all_zones_aux (server : Nat → ZonePageResp) :
    Nat → Nat → List (Nat × Nat) → List Zone → List (Nat × Nat) × Option (List Zone)
  | 0, _, reqs, _ => (reqs, none)
  | fuel + 1, page, reqs, acc =>
    let reqs := reqs ++ [(page, 50)]
    match server page with
    | .transport => (reqs, some [])
    | .body success result tp =>
      if !success then (reqs, some [])
      else
        let acc := acc ++ result
        let total_pages := tp.getD 1
        if total_pages ≤ page then (reqs, some acc)
        else get_all_zones_aux server fuel (page + 1) reqs acc

/-- `get_all_zones`: start at page 1 with empty accumulator. -/
def get_all_zones (server : Nat → ZonePageResp) (fuel : Nat) :
    List (Nat × Nat) × Option (List Zone) :=
  get_all_zones_aux server fuel 1 [] []

/-- A logpush job object as read by the orchestrator: `job.get('id')`,
`job.get('name', 'unnamed')`, `job.get('enabled', False)`.  A job whose
`enabled` key is absent behaves as disabled. -/
structure Job where
  id : String
  name : String
  enabled : Bool
deriving DecidableEq, Repr

/-- Outcome of one `GET /zones/{id}/logpush/jobs` request; `transport` as
in `ZonePageResp` (including `raise_for_status`), `result` defaulting to
`[]` when absent. -/
inductive JobsResp where
  | transport
  | body (success : Bool) (result : List Job)
deriving DecidableEq, Repr

/-- `get_logpush_jobs`: the `result` list on success, `[]` on any
transport error or `success=false` body. -/
def get_logpush_jobs (o : JobsResp) : List Job :=
  match o with
  | .transport => []
  | .body success result => if success then result else []

/-- A mutating HTTP call issued by the disable/delete flows. -/
inductive MutCall where
  | disable (zone_id : String) (job_id : String)
  | delete (zone_id : String) (job_id : String)
deriving DecidableEq, Repr

/-- The per-run counters and the trace of mutating calls of
`disable_all_logpush_jobs`. -/
structure RunState where
  calls : List MutCall
  success_count : Nat
  failed_count : Nat
  total_jobs : Nat
deriving DecidableEq, Repr

/-- Counters at the start of a run. -/
def initRunState : RunState := ⟨[], 0, 0, 0⟩

/-- The body of the inner `for job in jobs` loop of
`disable_all_logpush_jobs`: skip (counting a success) when not deleting and
the job is already disabled; otherwise issue exactly one disable or delete
call and count its boolean outcome.  `mutEnv` gives the HTTP outcome of
each mutating call. -/
def processJob (delete_jobs : Bool) (mutEnv : MutCall → HttpOutcome)
    (zone_id : String) (st : RunState) (job : Job) : RunState :=
  if !delete_jobs && !job.enabled then
    { st with success_count := st.success_count + 1 }
  else if delete_jobs then
    let c := MutCall.delete zone_id job.id
    if delete_logpush_job (mutEnv c) then
      { st with calls := st.calls ++ [c], success_count := st.success_count + 1 }
    else
      { st with calls := st.calls ++ [c], failed_count := st.failed_count + 1 }
  else
    let c := MutCall.disable zone_id job.id
    if disable_logpush_job (mutEnv c) then
      { st with calls := st.calls ++ [c], success_count := st.success_count + 1 }
    else
      { st with calls := st.calls ++ [c], failed_count := st.failed_count + 1 }

/-- The body of the outer `for zone in zones` loop: fetch the zone's jobs
(`jobsEnv` gives the HTTP outcome of the listing call); `continue` when the
list is empty, otherwise add its length to `total_jobs` and run the job
loop. -/
def processZone (delete_jobs : Bool) (jobsEnv : String → JobsResp)
    (mutEnv : MutCall → HttpOutcome) (st : RunState) (zone : Zone) : RunState :=
  let jobs := get_logpush_jobs (jobsEnv zone.id)
  if jobs.isEmpty then st
  else
    let st1 := { st with total_jobs := st.total_jobs + jobs.length }
    jobs.foldl (processJob delete_jobs mutEnv zone.id) st1

/-- `disable_all_logpush_jobs`, parameterised by the zone list returned by
`get_all_zones`.  The first component is `some exit_code` when `sys.exit`
runs (missing token, or empty/failed zone listing) — in that case no
mutating call has been issued — and `none` when the run reaches the
summary. -/
def disable_all_logpush_jobs (delete_jobs : Bool) (api_token : Option String)
    (zones : List Zone) (jobsEnv : String → JobsResp)
    (mutEnv : MutCall → HttpOutcome) : Option Nat × RunState :=
  if !truthy api_token then (some 1, initRunState)
  else if zones.isEmpty then (some 1, initRunState)
  else (none, zones.foldl (processZone delete_jobs jobsEnv mutEnv) initRunState)

/-- One create call issued by the create flow, with the payload fields the
script computes. -/
structure CreateCall where
  zone_id : String
  zone_name : String
  dataset : String
  name : String
  dest : String
deriving DecidableEq, Repr

/-- Counters and call trace of the create flow. -/
structure CreateState where
  calls : List CreateCall
  success_count : Nat
  failed_count : Nat
deriving DecidableEq, Repr

/-- Counters at the start of the create flow. -/
def initCreateState : CreateState := ⟨[], 0, 0⟩

/-- The inner `for dataset in target_datasets` loop of `main`: one create
call per dataset for the given zone.  `createEnv zone_id dataset` is the
HTTP outcome of the POST; an uncaught exception from `create_logpush_job`
propagates. -/
def createForZone (cfg : Config) (createEnv : String → String → HttpOutcome)
    (zone : Zone) : List String → CreateState → Except PyExc CreateState
  | [], st => .ok st
  | d :: ds, st =>
    let call : CreateCall :=
      ⟨zone.id, zone.name, d, job_name d zone.name,
       destination_conf (cfg.DESTINATION_URL.getD "") cfg.AUTH_HEADER⟩
    match create_logpush_job (createEnv zone.id d) with
    | .error e => .error e
    | .ok b =>
      createForZone cfg createEnv zone ds
        { st with
          calls := st.calls ++ [call],
          success_count := if b then st.success_count + 1 else st.success_count,
          failed_count := if b then st.failed_count else st.failed_count + 1 }

/-- The outer `for zone in zones` loop of `main`. -/
def createAllZones (cfg : Config) (createEnv : String → String → HttpOutcome) :
    List Zone → List String → CreateState → Except PyExc CreateState
  | [], _, st => .ok st
  | z :: zs, ds, st =>
    match createForZone cfg createEnv z ds st with
    | .error e => .error e
    | .ok st1 => createAllZones cfg createEnv zs ds st1

/-- `main` (the create flow), parameterised by the zone list returned by
`get_all_zones`: exit 1 when validation fails or the zone list is empty
(in both cases before any create call), otherwise run the double loop and
reach the summary. -/
def main (cfg : Config) (zones : List Zone)
    (createEnv : String → String → HttpOutcome) :
    Except PyExc (Option Nat × CreateState) :=
  if !(validate_config cfg).1 then .ok (some 1, initCreateState)
  else if zones.isEmpty then .ok (some 1, initCreateState)
  else
    match createAllZones cfg createEnv zones
        (get_target_datasets cfg.LOGPUSH_DATASETS_RAW) initCreateState with
    | .error e => .error e
    | .ok st => .ok (none, st)

/-! ### Helper lemmas -/

/-- When every entry of the error list has a `code` key, the duplicate
check cannot raise. -/
theorem anyCode1007_total (errors : List ApiErrorEntry)
    (h : ∀ e ∈ errors, e.code ≠ none) : ∃ b, anyCode1007 errors = .ok b := by
  induction errors with
  | nil => exact ⟨false, rfl⟩
  | cons e rest ih =>
    match hc : e.code with
    | none => exact absurd hc (h e (List.mem_cons_self e rest))
    | some c =>
      by_cases h7 : c = 1007
      · exact ⟨true, by simp [anyCode1007, hc, h7]⟩
      · obtain ⟨b, hb⟩ := ih (fun x hx => h x (List.mem_cons_of_mem e hx))
        exact ⟨b, by simp [anyCode1007, hc, h7, hb]⟩

/-! ### Claims -/

/-- Claim C1.  The claim states that a 400 response carrying the
duplicate-destination error code 1007 is classified as a non-failing skip
(the success outcome).  The code contradicts this: the `[SKIPPED]` branch
of `create_logpush_job` only prints and then falls through to
`return False`, so `main` adds the skip to `failed_count`.  Running the
create flow against a single zone whose create POST answers
400/code-1007 therefore ends with `success_count = 0` and
`failed_count = 1`, although the summary line is labelled
"Successfully created/skipped". -/
theorem create_duplicate_skip_counted_as_failure :
    create_logpush_job (.response 400 false [⟨some 1007⟩]) = .ok false ∧
    main ⟨some "t", some "https://logs.example.com/ingest", none, "http_requests"⟩
      [⟨"zidA", "a.com"⟩] (fun _ _ => .response 400 false [⟨some 1007⟩]) =
      .ok (none,
        { calls := [⟨"zidA", "a.com", "http_requests", "logpush_http_requests_a_com",
                     "https://logs.example.com/ingest"⟩],
          success_count := 0, failed_count := 1 }) :=
  ⟨rfl, rfl⟩

/-- Claim C3 (counterexample).  The claim states that no exception ever
escapes the three mutators, even for error lists whose entries lack
expected keys.  It fails: on a 400 response whose error list has an entry
without a `code` key, `any(error['code'] == 1007 ...)` inside
`create_logpush_job` raises `KeyError`, which is not a
`RequestException` and is not caught. -/
theorem create_keyError_escapes :
    create_logpush_job (.response 400 false [⟨none⟩]) = .error .keyError := rfl

/-- Claim C3 (amended).  `disable_logpush_job` and `delete_logpush_job`
always return a boolean and convert transport errors to `False`;
`create_logpush_job` does too, except that on a 400 response whose error
list contains an entry lacking the `code` key (before any code-1007 entry)
a `KeyError` escapes.  In particular no exception escapes `create` on any
transport error, and on any response all of whose error entries carry a
`code` key. -/
theorem mutators_exception_safety :
    create_logpush_job .transportError = .ok false ∧
    disable_logpush_job .transportError = false ∧
    delete_logpush_job .transportError = false ∧
    (∀ (status : Nat) (success : Bool) (errors : List ApiErrorEntry),
      (∀ e ∈ errors, e.code ≠ none) →
      ∃ b, create_logpush_job (.response status success errors) = .ok b) := by
  refine ⟨rfl, rfl, rfl, ?_⟩
  intro status success errors herr
  unfold create_logpush_job
  by_cases h2 : status = 200 ∨ status = 201
  · exact ⟨success, by simp [h2]⟩
  · by_cases h4 : status = 400
    · obtain ⟨b, hb⟩ := anyCode1007_total errors herr
      exact ⟨false, by simp [h2, h4, hb]⟩
    · exact ⟨false, by simp [h2, h4]⟩

/-- Claim C3 (witness for the amended theorem). -/
theorem mutators_exception_safety_witness :
    (∀ e ∈ [ApiErrorEntry.mk (some 1007)], e.code ≠ none) ∧
    ∃ b, create_logpush_job (.response 400 false [⟨some 1007⟩]) = .ok b :=
  ⟨by decide, mutators_exception_safety.2.2.2 400 false [⟨some 1007⟩] (by decide)⟩

/-- Claim C4.  For a truthy auth header the destination configuration is
the base URL followed by `header_Authorization=` and the raw header, with
separator `&` when the base already contains `?` and `?` otherwise, and no
URL-encoding; without an auth header it is the base URL unchanged; the
spec's concrete example evaluates as stated. -/
theorem destination_conf_spec :
    (∀ base auth : String, auth ≠ "" →
      destination_conf base (some auth) =
        base ++ ((if base.data.contains '?' then "&" else "?") ++
          "header_Authorization=" ++ auth)) ∧
    (∀ base : String, destination_conf base none = base) ∧
    destination_conf "https://logs.example.com/ingest" (some "Bearer xyz") =
      "https://logs.example.com/ingest?header_Authorization=Bearer xyz" := by
  refine ⟨?_, fun base => rfl, by decide⟩
  intro base auth h
  have hd : auth.data ≠ [] := fun hh => h (String.ext hh)
  simp [destination_conf, truthy, List.isEmpty_iff, hd]

/-- Claim C4 (witness). -/
theorem destination_conf_spec_witness :
    ("Bearer xyz" : String) ≠ "" ∧
    destination_conf "https://logs.example.com/ingest" (some "Bearer xyz") =
      "https://logs.example.com/ingest" ++
        ((if ("https://logs.example.com/ingest" : String).data.contains '?'
          then "&" else "?") ++ "header_Authorization=" ++ "Bearer xyz") :=
  ⟨by decide, destination_conf_spec.1 "https://logs.example.com/ingest" "Bearer xyz" (by decide)⟩

/-- Claim C7.  The job name is `logpush_` + dataset + `_` + the zone name
with every `.` replaced by `_`; and the create flow on zones `a.com` and
`b.com` with dataset `http_requests` issues exactly one create call per
zone, named `logpush_http_requests_a_com` and
`logpush_http_requests_b_com`, in zone order. -/
theorem job_name_spec :
    (∀ dataset zone_name : String,
      job_name dataset zone_name =
        "logpush_" ++ dataset ++ "_" ++
          String.mk (zone_name.data.map (fun c => if c = '.' then '_' else c))) ∧
    main ⟨some "t", some "https://logs.example.com/ingest", none, "http_requests"⟩
      [⟨"zidA", "a.com"⟩, ⟨"zidB", "b.com"⟩] (fun _ _ => .response 201 true []) =
      .ok (none,
        { calls := [⟨"zidA", "a.com", "http_requests", "logpush_http_requests_a_com",
                     "https://logs.example.com/ingest"⟩,
                    ⟨"zidB", "b.com", "http_requests", "logpush_http_requests_b_com",
                     "https://logs.example.com/ingest"⟩],
          success_count := 2, failed_count := 0 }) :=
  ⟨fun _ _ => rfl, rfl⟩

/-- Claim C8.  Whenever the zone listing yields the empty sequence (zero
zones or a listing failure, which `get_all_zones` collapses to `[]`), both
the create flow and the disable/delete flows call `sys.exit(1)` and issue
zero mutating calls: the final state is the initial one, whose call trace
is empty. -/
theorem empty_zone_listing_exits_nonzero :
    (∀ (cfg : Config) (createEnv : String → String → HttpOutcome),
      main cfg [] createEnv = .ok (some 1, initCreateState)) ∧
    (∀ (delete_jobs : Bool) (api_token : Option String)
      (jobsEnv : String → JobsResp) (mutEnv : MutCall → HttpOutcome),
      disable_all_logpush_jobs delete_jobs api_token [] jobsEnv mutEnv =
        (some 1, initRunState)) ∧
    initCreateState.calls = [] ∧ initRunState.calls = [] := by
  refine ⟨fun cfg createEnv => ?_, fun d t j m => ?_, rfl, rfl⟩
  · unfold main
    split
    · rfl
    · rfl
  · unfold disable_all_logpush_jobs
    split
    · rfl
    · rfl

/-- The dataset filter of `validate_config` is empty exactly when every
parsed dataset is allow-listed. -/
theorem invalid_filter_isEmpty (l : List String) :
    (l.filter (fun d => !VALID_ZONE_DATASETS.contains d)).isEmpty = true ↔
      ∀ d ∈ l, d ∈ VALID_ZONE_DATASETS := by
  simp [List.isEmpty_iff, List.filter_eq_nil_iff, List.contains]

/-- Claim C5.  `validate_config` returns failure exactly when the API
credential is unset or empty, the destination URL is unset or empty, or
some entry of the parsed dataset list is outside the five-name allow-list;
and on the success path its output contains the resolved destination line
and the dataset-list line. -/
theorem validate_config_spec (cfg : Config) :
    ((validate_config cfg).1 = false ↔
      truthy cfg.API_TOKEN = false ∨ truthy cfg.DESTINATION_URL = false ∨
        ∃ d ∈ get_target_datasets cfg.LOGPUSH_DATASETS_RAW,
          d ∉ VALID_ZONE_DATASETS) ∧
    ((validate_config cfg).1 = true →
      ("Destination URL: " ++ cfg.DESTINATION_URL.getD "") ∈ (validate_config cfg).2 ∧
      ("Datasets to configure: " ++ String.intercalate ", "
        (get_target_datasets cfg.LOGPUSH_DATASETS_RAW)) ∈ (validate_config cfg).2) := by
  by_cases h1 : truthy cfg.API_TOKEN
  · by_cases h2 : truthy cfg.DESTINATION_URL
    · by_cases hex : ∃ d ∈ get_target_datasets cfg.LOGPUSH_DATASETS_RAW,
          d ∉ VALID_ZONE_DATASETS
      · constructor
        · simp [validate_config, h1, h2, hex]
        · intro ht
          exfalso
          revert ht
          simp [validate_config, h1, h2, hex]
      · constructor
        · simp [validate_config, h1, h2, hex]
        · intro _
          simp [validate_config, h1, h2, hex]
    · constructor
      · simp [validate_config, h1, h2]
      · intro ht
        exfalso
        revert ht
        simp [validate_config, h1, h2]
  · constructor
    · simp [validate_config, h1]
    · intro ht
      exfalso
      revert ht
      simp [validate_config, h1]

/-- Claim C5 (witness). -/
theorem validate_config_spec_witness :
    ((validate_config ⟨some "t", some "https://d", none, "http_requests, dns_logs"⟩).1 = false ↔
      truthy (some "t") = false ∨ truthy (some "https://d") = false ∨
        ∃ d ∈ get_target_datasets "http_requests, dns_logs", d ∉ VALID_ZONE_DATASETS) ∧
    ((validate_config ⟨some "t", some "https://d", none, "http_requests, dns_logs"⟩).1 = true →
      ("Destination URL: " ++ (some "https://d").getD "") ∈
        (validate_config ⟨some "t", some "https://d", none, "http_requests, dns_logs"⟩).2 ∧
      ("Datasets to configure: " ++ String.intercalate ", "
        (get_target_datasets "http_requests, dns_logs")) ∈
        (validate_config ⟨some "t", some "https://d", none, "http_requests, dns_logs"⟩).2) :=
  validate_config_spec ⟨some "t", some "https://d", none, "http_requests, dns_logs"⟩

/-- Characterisation of the pagination loop on an all-successful server:
from page `page ≤ N` with enough fuel, the loop requests pages
`page, …, N` with `per_page` 50 and appends their results in order. -/
theorem get_all_zones_aux_ok (server : Nat → ZonePageResp) (N : Nat)
    (res : Nat → List Zone)
    (hsrv : ∀ p, 1 ≤ p → p ≤ N → server p = .body true (res p) (some N)) :
    ∀ (fuel page : Nat) (reqs : List (Nat × Nat)) (acc : List Zone),
      1 ≤ page → page ≤ N → N < page + fuel →
      get_all_zones_aux server fuel page reqs acc =
        (reqs ++ (List.range' page (N + 1 - page)).map (fun p => (p, 50)),
         some (acc ++ ((List.range' page (N + 1 - page)).map res).flatten)) := by
  intro fuel
  induction fuel with
  | zero =>
    intro page reqs acc h1 h2 h3
    omega
  | succ f ih =>
    intro page reqs acc h1 h2 h3
    rw [get_all_zones_aux, hsrv page h1 h2]
    simp only [Bool.not_true, Bool.false_eq_true, if_false, Option.getD_some]
    by_cases hend : N ≤ page
    · have hpN : page = N := Nat.le_antisymm h2 hend
      rw [if_pos hend]
      rw [← hpN]
      have : page + 1 - page = 1 := by omega
      rw [this]
      simp [List.range'_succ]
    · rw [if_neg hend]
      rw [ih (page + 1) (reqs ++ [(page, 50)]) (acc ++ res page)
        (by omega) (by omega) (by omega)]
      have hsub : N + 1 - page = (N - page) + 1 := by omega
      have hsub2 : N + 1 - (page + 1) = N - page := by omega
      rw [hsub, hsub2, List.range'_succ]
      simp [List.append_assoc]

/-- Characterisation of the pagination loop when page `k` is the first
failing page: every earlier page succeeds and points past itself, so the
loop reaches page `k` and returns the empty list. -/
theorem get_all_zones_aux_fail (server : Nat → ZonePageResp) (k : Nat)
    (hpre : ∀ p, 1 ≤ p → p < k →
      ∃ r tp, server p = .body true r (some tp) ∧ p < tp)
    (hk : server k = .transport ∨ ∃ r tp, server k = .body false r tp) :
    ∀ (fuel page : Nat) (reqs : List (Nat × Nat)) (acc : List Zone),
      1 ≤ page → page ≤ k → k < page + fuel →
      (get_all_zones_aux server fuel page reqs acc).2 = some [] := by
  intro fuel
  induction fuel with
  | zero =>
    intro page reqs acc h1 h2 h3
    omega
  | succ f ih =>
    intro page reqs acc h1 h2 h3
    by_cases hpk : page = k
    · subst hpk
      rcases hk with ht | ⟨r, tp, hb⟩
      · rw [get_all_zones_aux, ht]
      · rw [get_all_zones_aux, hb]
        simp
    · obtain ⟨r, tp, hb, htp⟩ := hpre page h1 (by omega)
      rw [get_all_zones_aux, hb]
      simp only [Bool.not_true, Bool.false_eq_true, if_false, Option.getD_some]
      rw [if_neg (by omega)]
      exact ih (page + 1) (reqs ++ [(page, 50)]) (acc ++ r)
        (by omega) (by omega) (by omega)

/-- Claim C2.  On a server where pages `1..N` each succeed with
`total_pages = N`, `get_all_zones` issues exactly `N` requests with
`per_page` 50 and page numbers `1..N` and returns the concatenation of the
page results in page order; and whenever the first failing page `k`
(transport error — which includes the non-2xx `raise_for_status` — or a
`success=false` body) is reached, it returns the empty list regardless of
the zones already fetched. -/
theorem get_all_zones_spec :
    (∀ (server : Nat → ZonePageResp) (N : Nat) (res : Nat → List Zone)
      (fuel : Nat), 1 ≤ N → N ≤ fuel →
      (∀ p, 1 ≤ p → p ≤ N → server p = .body true (res p) (some N)) →
      get_all_zones server fuel =
        ((List.range' 1 N).map (fun p => (p, 50)),
         some ((List.range' 1 N).map res).flatten)) ∧
    (∀ (server : Nat → ZonePageResp) (k fuel : Nat), 1 ≤ k → k ≤ fuel →
      (∀ p, 1 ≤ p → p < k →
        ∃ r tp, server p = .body true r (some tp) ∧ p < tp) →
      (server k = .transport ∨ ∃ r tp, server k = .body false r tp) →
      (get_all_zones server fuel).2 = some []) := by
  constructor
  · intro server N res fuel hN hfuel hsrv
    unfold get_all_zones
    rw [get_all_zones_aux_ok server N res hsrv fuel 1 [] [] (by omega) hN (by omega)]
    simp
  · intro server k fuel hk hfuel hpre hfail
    unfold get_all_zones
    exact get_all_zones_aux_fail server k hpre hfail fuel 1 [] [] (by omega) hk (by omega)

/-- Claim C2 (witness): a two-page server and a server failing on page 2. -/
theorem get_all_zones_spec_witness :
    get_all_zones (fun p => if p = 1 then .body true [⟨"z1", "a.com"⟩] (some 2)
                            else .body true [⟨"z2", "b.com"⟩] (some 2)) 2 =
      ((List.range' 1 2).map (fun p => (p, 50)),
       some (((List.range' 1 2).map
         (fun p => if p = 1 then [⟨"z1", "a.com"⟩] else [⟨"z2", "b.com"⟩])).flatten)) ∧
    (get_all_zones (fun p => if p = 1 then .body true [⟨"z1", "a.com"⟩] (some 2)
                             else .transport) 5).2 = some [] := by
  constructor
  · exact get_all_zones_spec.1 _ 2
      (fun p => if p = 1 then [⟨"z1", "a.com"⟩] else [⟨"z2", "b.com"⟩]) 2
      (by omega) (by omega)
      (fun p h1 h2 => by interval_cases p <;> rfl)
  · exact get_all_zones_spec.2 _ 2 5 (by omega) (by omega)
      (fun p h1 h2 => by
        interval_cases p
        exact ⟨[⟨"z1", "a.com"⟩], 2, rfl, by omega⟩)
      (Or.inl rfl)

/-- The mutating calls one job step issues: none for an already-disabled
job in the disable flow, exactly one otherwise. -/
def jobCalls (delete_jobs : Bool) (zone_id : String) (j : Job) : List MutCall :=
  if !delete_jobs && !j.enabled then []
  else if delete_jobs then [.delete zone_id j.id] else [.disable zone_id j.id]

/-- The contribution of one job to `success_count`. -/
def jobSucc (delete_jobs : Bool) (mutEnv : MutCall → HttpOutcome)
    (zone_id : String) (j : Job) : Nat :=
  if !delete_jobs && !j.enabled then 1
  else if delete_jobs then
    (if delete_logpush_job (mutEnv (.delete zone_id j.id)) then 1 else 0)
  else
    (if disable_logpush_job (mutEnv (.disable zone_id j.id)) then 1 else 0)

/-- The contribution of one job to `failed_count`. -/
def jobFail (delete_jobs : Bool) (mutEnv : MutCall → HttpOutcome)
    (zone_id : String) (j : Job) : Nat :=
  if !delete_jobs && !j.enabled then 0
  else if delete_jobs then
    (if delete_logpush_job (mutEnv (.delete zone_id j.id)) then 0 else 1)
  else
    (if disable_logpush_job (mutEnv (.disable zone_id j.id)) then 0 else 1)

/-- One job step in terms of the per-job contributions. -/
theorem processJob_eq (delete_jobs : Bool) (mutEnv : MutCall → HttpOutcome)
    (zone_id : String) (st : RunState) (j : Job) :
    processJob delete_jobs mutEnv zone_id st j =
      { calls := st.calls ++ jobCalls delete_jobs zone_id j,
        success_count := st.success_count + jobSucc delete_jobs mutEnv zone_id j,
        failed_count := st.failed_count + jobFail delete_jobs mutEnv zone_id j,
        total_jobs := st.total_jobs } := by
  unfold processJob jobCalls jobSucc jobFail
  by_cases h1 : !delete_jobs && !j.enabled
  · simp [h1]
  · by_cases h2 : delete_jobs
    · by_cases h3 : delete_logpush_job (mutEnv (.delete zone_id j.id)) <;>
        simp [h1, h2, h3]
    · have hd : delete_jobs = false := by
        revert h2
        cases delete_jobs <;> simp
      have hj : j.enabled = true := by
        revert h1
        rw [hd]
        cases j.enabled <;> simp
      by_cases h3 : disable_logpush_job (mutEnv (.disable zone_id j.id)) <;>
        simp [h1, h2, h3, hj]

/-- The inner job loop in terms of the per-job contributions. -/
theorem foldl_processJob (delete_jobs : Bool) (mutEnv : MutCall → HttpOutcome)
    (zone_id : String) :
    ∀ (jobs : List Job) (st : RunState),
      jobs.foldl (processJob delete_jobs mutEnv zone_id) st =
        { calls := st.calls ++ (jobs.map (jobCalls delete_jobs zone_id)).flatten,
          success_count :=
            st.success_count + (jobs.map (jobSucc delete_jobs mutEnv zone_id)).sum,
          failed_count :=
            st.failed_count + (jobs.map (jobFail delete_jobs mutEnv zone_id)).sum,
          total_jobs := st.total_jobs } := by
  intro jobs
  induction jobs with
  | nil => intro st; simp
  | cons j js ih =>
    intro st
    rw [List.foldl_cons, processJob_eq, ih]
    simp [List.append_assoc, Nat.add_assoc]

/-- One zone step in terms of the per-job contributions of its job list. -/
theorem processZone_eq (delete_jobs : Bool) (jobsEnv : String → JobsResp)
    (mutEnv : MutCall → HttpOutcome) (st : RunState) (z : Zone) :
    processZone delete_jobs jobsEnv mutEnv st z =
      { calls := st.calls ++
          ((get_logpush_jobs (jobsEnv z.id)).map (jobCalls delete_jobs z.id)).flatten,
        success_count := st.success_count +
          ((get_logpush_jobs (jobsEnv z.id)).map (jobSucc delete_jobs mutEnv z.id)).sum,
        failed_count := st.failed_count +
          ((get_logpush_jobs (jobsEnv z.id)).map (jobFail delete_jobs mutEnv z.id)).sum,
        total_jobs := st.total_jobs + (get_logpush_jobs (jobsEnv z.id)).length } := by
  unfold processZone
  by_cases h : (get_logpush_jobs (jobsEnv z.id)).isEmpty
  · have hnil : get_logpush_jobs (jobsEnv z.id) = [] := List.isEmpty_iff.mp h
    rw [if_pos h, hnil]
    simp
  · rw [if_neg h, foldl_processJob]

/-- The outer zone loop in terms of the per-zone contributions. -/
theorem foldl_processZone (delete_jobs : Bool) (jobsEnv : String → JobsResp)
    (mutEnv : MutCall → HttpOutcome) :
    ∀ (zones : List Zone) (st : RunState),
      zones.foldl (processZone delete_jobs jobsEnv mutEnv) st =
        { calls := st.calls ++ (zones.map (fun z =>
            ((get_logpush_jobs (jobsEnv z.id)).map (jobCalls delete_jobs z.id)).flatten)).flatten,
          success_count := st.success_count + (zones.map (fun z =>
            ((get_logpush_jobs (jobsEnv z.id)).map (jobSucc delete_jobs mutEnv z.id)).sum)).sum,
          failed_count := st.failed_count + (zones.map (fun z =>
            ((get_logpush_jobs (jobsEnv z.id)).map (jobFail delete_jobs mutEnv z.id)).sum)).sum,
          total_jobs := st.total_jobs + (zones.map (fun z =>
            (get_logpush_jobs (jobsEnv z.id)).length)).sum } := by
  intro zones
  induction zones with
  | nil => intro st; simp
  | cons z zs ih =>
    intro st
    rw [List.foldl_cons, processZone_eq, ih]
    simp [List.append_assoc, Nat.add_assoc]

/-- In the disable flow each job yields its disable call exactly when it is
enabled. -/
theorem jobCalls_disable_flatten (zone_id : String) :
    ∀ jobs : List Job,
      (jobs.map (jobCalls false zone_id)).flatten =
        (jobs.filter (fun j => j.enabled)).map (fun j => MutCall.disable zone_id j.id) := by
  intro jobs
  induction jobs with
  | nil => rfl
  | cons j js ih =>
    by_cases hj : j.enabled <;>
      simp [jobCalls, hj, ih, List.filter_cons]

/-- In the delete flow each job yields exactly one delete call. -/
theorem jobCalls_delete_flatten (zone_id : String) :
    ∀ jobs : List Job,
      (jobs.map (jobCalls true zone_id)).flatten =
        jobs.map (fun j => MutCall.delete zone_id j.id) := by
  intro jobs
  induction jobs with
  | nil => rfl
  | cons j js ih => simp [jobCalls, ih]

/-- Decomposition of the disable-flow success count of one zone: one per
already-disabled job plus one per enabled job whose disable call
succeeded. -/
theorem jobSucc_disable_sum (mutEnv : MutCall → HttpOutcome) (zone_id : String) :
    ∀ jobs : List Job,
      (jobs.map (jobSucc false mutEnv zone_id)).sum =
        (jobs.filter (fun j => !j.enabled)).length +
        ((jobs.filter (fun j => j.enabled)).map (fun j =>
          if disable_logpush_job (mutEnv (.disable zone_id j.id)) then 1 else 0)).sum := by
  intro jobs
  induction jobs with
  | nil => rfl
  | cons j js ih =>
    by_cases hj : j.enabled <;>
      simp [jobSucc, hj, ih, List.filter_cons] <;> omega

/-- Each job contributes to exactly one of the two counters. -/
theorem jobSucc_add_jobFail (delete_jobs : Bool) (mutEnv : MutCall → HttpOutcome)
    (zone_id : String) :
    ∀ jobs : List Job,
      (jobs.map (jobSucc delete_jobs mutEnv zone_id)).sum +
        (jobs.map (jobFail delete_jobs mutEnv zone_id)).sum = jobs.length := by
  intro jobs
  induction jobs with
  | nil => rfl
  | cons j js ih =>
    have hone : jobSucc delete_jobs mutEnv zone_id j +
        jobFail delete_jobs mutEnv zone_id j = 1 := by
      unfold jobSucc jobFail
      by_cases h1 : !delete_jobs && !j.enabled
      · simp [h1]
      · by_cases h2 : delete_jobs
        · by_cases h3 : delete_logpush_job (mutEnv (.delete zone_id j.id)) <;>
            simp [h1, h2, h3]
        · have hd : delete_jobs = false := by
            revert h2
            cases delete_jobs <;> simp
          have hj : j.enabled = true := by
            revert h1
            rw [hd]
            cases j.enabled <;> simp
          by_cases h3 : disable_logpush_job (mutEnv (.disable zone_id j.id)) <;>
            simp [h1, h2, h3, hj]
    simp only [List.map_cons, List.sum_cons, List.length_cons]
    omega

/-- Pointwise additivity of mapped sums. -/
theorem sum_map_add_sum_map {α : Type} (f g h : α → Nat)
    (hfg : ∀ a, f a + g a = h a) :
    ∀ l : List α, (l.map f).sum + (l.map g).sum = (l.map h).sum := by
  intro l
  induction l with
  | nil => rfl
  | cons a l ih =>
    have ha := hfg a
    simp only [List.map_cons, List.sum_cons]
    omega


/-- Claim C6.  In the disable flow every already-disabled job is counted as
a success without any mutating call and every enabled job issues exactly
one disable call (the trace is exactly the enabled jobs' disable calls, and
`success_count` is the number of disabled jobs plus the number of enabled
jobs whose disable call succeeded); in the delete flow exactly one delete
call is issued per job found, regardless of its enabled flag. -/
theorem disable_skip_delete_unconditional
    (api_token : Option String) (zones : List Zone)
    (jobsEnv : String → JobsResp) (mutEnv : MutCall → HttpOutcome)
    (htok : truthy api_token = true) :
    ((disable_all_logpush_jobs false api_token zones jobsEnv mutEnv).2.calls =
      (zones.map (fun z =>
        ((get_logpush_jobs (jobsEnv z.id)).filter (fun j => j.enabled)).map
          (fun j => MutCall.disable z.id j.id))).flatten) ∧
    ((disable_all_logpush_jobs false api_token zones jobsEnv mutEnv).2.success_count =
      (zones.map (fun z =>
        ((get_logpush_jobs (jobsEnv z.id)).filter (fun j => !j.enabled)).length +
        (((get_logpush_jobs (jobsEnv z.id)).filter (fun j => j.enabled)).map (fun j =>
          if disable_logpush_job (mutEnv (.disable z.id j.id)) then 1 else 0)).sum)).sum) ∧
    ((disable_all_logpush_jobs true api_token zones jobsEnv mutEnv).2.calls =
      (zones.map (fun z =>
        (get_logpush_jobs (jobsEnv z.id)).map
          (fun j => MutCall.delete z.id j.id))).flatten) := by
  by_cases hz : zones = []
  · subst hz
    simp [disable_all_logpush_jobs, initRunState]
  · have hne : zones.isEmpty = false := by simp [List.isEmpty_iff, hz]
    unfold disable_all_logpush_jobs
    rw [htok, hne]
    simp only [Bool.not_true, Bool.false_eq_true, if_false]
    rw [foldl_processZone, foldl_processZone]
    refine ⟨?_, ?_, ?_⟩
    · simp [initRunState, jobCalls_disable_flatten]
    · simp [initRunState, jobSucc_disable_sum]
    · simp [initRunState, jobCalls_delete_flatten]

/-- Claim C6 (witness): one zone with one disabled and one enabled job; the
disable flow issues one call (for the enabled job) and counts two
successes, the delete flow issues two calls. -/
theorem disable_skip_delete_unconditional_witness :
    truthy (some "t") = true ∧
    (disable_all_logpush_jobs false (some "t") [⟨"z1", "a.com"⟩]
        (fun _ => .body true [⟨"j1", "n1", false⟩, ⟨"j2", "n2", true⟩])
        (fun _ => .response 200 true [])).2.calls = [MutCall.disable "z1" "j2"] ∧
    (disable_all_logpush_jobs false (some "t") [⟨"z1", "a.com"⟩]
        (fun _ => .body true [⟨"j1", "n1", false⟩, ⟨"j2", "n2", true⟩])
        (fun _ => .response 200 true [])).2.success_count = 2 ∧
    (disable_all_logpush_jobs true (some "t") [⟨"z1", "a.com"⟩]
        (fun _ => .body true [⟨"j1", "n1", false⟩, ⟨"j2", "n2", true⟩])
        (fun _ => .response 200 true [])).2.calls =
      [MutCall.delete "z1" "j1", MutCall.delete "z1" "j2"] := by
  have h := disable_skip_delete_unconditional (some "t") [⟨"z1", "a.com"⟩]
    (fun _ => .body true [⟨"j1", "n1", false⟩, ⟨"j2", "n2", true⟩])
    (fun _ => .response 200 true []) (by decide)
  exact ⟨by decide, h.1.trans (by decide), h.2.1.trans (by decide),
    h.2.2.trans (by decide)⟩

/-- Claim C10.  In every disable or delete run that reaches the summary the
counters partition the jobs: `success_count + failed_count = total_jobs`,
and `total_jobs` is the sum of the job-list lengths over all zones (a zone
whose listing returned `[]` contributes 0, so this equals the sum over
zones with a non-empty job list). -/
theorem counters_partition_total
    (delete_jobs : Bool) (api_token : Option String) (zones : List Zone)
    (jobsEnv : String → JobsResp) (mutEnv : MutCall → HttpOutcome)
    (htok : truthy api_token = true) (hz : zones ≠ []) :
    ((disable_all_logpush_jobs delete_jobs api_token zones jobsEnv mutEnv).2.success_count +
      (disable_all_logpush_jobs delete_jobs api_token zones jobsEnv mutEnv).2.failed_count =
      (disable_all_logpush_jobs delete_jobs api_token zones jobsEnv mutEnv).2.total_jobs) ∧
    ((disable_all_logpush_jobs delete_jobs api_token zones jobsEnv mutEnv).2.total_jobs =
      (zones.map (fun z => (get_logpush_jobs (jobsEnv z.id)).length)).sum) := by
  have hne : zones.isEmpty = false := by simp [List.isEmpty_iff, hz]
  unfold disable_all_logpush_jobs
  rw [htok, hne]
  simp only [Bool.not_true, Bool.false_eq_true, if_false]
  rw [foldl_processZone]
  constructor
  · simpa [initRunState] using
      sum_map_add_sum_map
        (fun z => ((get_logpush_jobs (jobsEnv z.id)).map
          (jobSucc delete_jobs mutEnv z.id)).sum)
        (fun z => ((get_logpush_jobs (jobsEnv z.id)).map
          (jobFail delete_jobs mutEnv z.id)).sum)
        (fun z => (get_logpush_jobs (jobsEnv z.id)).length)
        (fun z => jobSucc_add_jobFail delete_jobs mutEnv z.id
          (get_logpush_jobs (jobsEnv z.id))) zones
  · simp [initRunState]

/-- Claim C10 (witness): one zone with two jobs in a disable run whose
mutating calls all fail at the transport level. -/
theorem counters_partition_total_witness :
    truthy (some "t") = true ∧
    ((["z"].map (fun s => Zone.mk s s)) ≠ []) ∧
    ((disable_all_logpush_jobs false (some "t") (["z"].map (fun s => Zone.mk s s))
        (fun _ => .body true [⟨"j1", "n1", false⟩, ⟨"j2", "n2", true⟩])
        (fun _ => .transportError)).2.success_count +
      (disable_all_logpush_jobs false (some "t") (["z"].map (fun s => Zone.mk s s))
        (fun _ => .body true [⟨"j1", "n1", false⟩, ⟨"j2", "n2", true⟩])
        (fun _ => .transportError)).2.failed_count =
      (disable_all_logpush_jobs false (some "t") (["z"].map (fun s => Zone.mk s s))
        (fun _ => .body true [⟨"j1", "n1", false⟩, ⟨"j2", "n2", true⟩])
        (fun _ => .transportError)).2.total_jobs) ∧
    ((disable_all_logpush_jobs false (some "t") (["z"].map (fun s => Zone.mk s s))
        (fun _ => .body true [⟨"j1", "n1", false⟩, ⟨"j2", "n2", true⟩])
        (fun _ => .transportError)).2.total_jobs = 2) := by
  have h := counters_partition_total false (some "t") (["z"].map (fun s => Zone.mk s s))
    (fun _ => .body true [⟨"j1", "n1", false⟩, ⟨"j2", "n2", true⟩])
    (fun _ => .transportError) (by decide) (by decide)
  exact ⟨by decide, by decide, h.1, h.2.trans (by decide)⟩

/-- Whitespace never wholly drops a list it does not start. -/
theorem dropWhile_all (q : List Char) (hq : ∀ c ∈ q, pyIsSpace c = true) :
    q.dropWhile pyIsSpace = [] := by
  induction q with
  | nil => rfl
  | cons c cs ih =>
    rw [List.dropWhile_cons, if_pos (hq c (List.mem_cons_self c cs))]
    exact ih (fun x hx => hq x (List.mem_cons_of_mem c hx))

/-- Stripping a padded token recovers the token: whitespace-only padding on
both sides of a token with no leading or trailing whitespace. -/
theorem pyStrip_pad (p n q : List Char)
    (hp : ∀ c ∈ p, pyIsSpace c = true) (hq : ∀ c ∈ q, pyIsSpace c = true)
    (h1 : n.dropWhile pyIsSpace = n)
    (h2 : n.reverse.dropWhile pyIsSpace = n.reverse) :
    pyStrip (p ++ n ++ q) = n := by
  unfold pyStrip
  rw [List.append_assoc, List.dropWhile_append_of_pos hp]
  by_cases hn : n = []
  · subst hn
    rw [List.nil_append, dropWhile_all q hq]
    rfl
  · obtain ⟨c, n2, rfl⟩ := List.exists_cons_of_ne_nil hn
    have hc : pyIsSpace c = false := by
      by_cases hcc : pyIsSpace c = true
      · rw [List.dropWhile_cons, if_pos hcc] at h1
        have hlen := congrArg List.length h1
        have hle : (n2.dropWhile pyIsSpace).length ≤ n2.length :=
          (List.dropWhile_sublist pyIsSpace).length_le
        simp at hlen
        omega
      · revert hcc
        cases pyIsSpace c <;> simp
    have hstep : ((c :: n2) ++ q).dropWhile pyIsSpace = (c :: n2) ++ q := by
      rw [List.cons_append, List.dropWhile_cons, if_neg (by simp [hc])]
    rw [hstep, List.reverse_append,
      List.dropWhile_append_of_pos (fun x hx => hq x (List.mem_reverse.mp hx)),
      h2, List.reverse_reverse]

/-- Every allow-listed dataset name is non-empty, comma-free and carries no
leading or trailing whitespace. -/
theorem valid_dataset_clean :
    ∀ s ∈ VALID_ZONE_DATASETS,
      s.data ≠ [] ∧ (Char.ofNat 44) ∉ s.data ∧
      s.data.dropWhile pyIsSpace = s.data ∧
      s.data.reverse.dropWhile pyIsSpace = s.data.reverse := by decide

/-- The comma separator is not whitespace. -/
theorem pyIsSpace_char_comma : ∀ c, pyIsSpace c = true → ¬c = Char.ofNat 44 := by
  intro c h hc
  subst hc
  exact absurd h (by decide)

/-- Pointwise action of the comprehension on a padded entry list: each
entry survives the emptiness filter and strips back to its name. -/
theorem strip_filter_map (entries : List (List Char × String × List Char))
    (hent : ∀ e ∈ entries,
      (∀ c ∈ e.1, pyIsSpace c = true) ∧ (∀ c ∈ e.2.2, pyIsSpace c = true) ∧
      e.2.1 ∈ VALID_ZONE_DATASETS) :
    (((entries.map (fun e => e.1 ++ e.2.1.data ++ e.2.2)).filter
      (fun d => !(pyStrip d).isEmpty)).map (fun d => String.mk (pyStrip d))) =
    entries.map (fun e => e.2.1) := by
  induction entries with
  | nil => rfl
  | cons e es ih =>
    obtain ⟨hp, hq, hv⟩ := hent e (List.mem_cons_self e es)
    obtain ⟨hne, _, hd1, hd2⟩ := valid_dataset_clean e.2.1 hv
    have hstrip : pyStrip (e.1 ++ e.2.1.data ++ e.2.2) = e.2.1.data :=
      pyStrip_pad e.1 e.2.1.data e.2.2 hp hq hd1 hd2
    have hkeep : (!(pyStrip (e.1 ++ e.2.1.data ++ e.2.2)).isEmpty) = true := by
      rw [hstrip]
      simp [List.isEmpty_iff, hne]
    rw [List.map_cons, List.filter_cons, if_pos hkeep, List.map_cons, hstrip,
      List.map_cons]
    rw [ih (fun x hx => hent x (List.mem_cons_of_mem e hx))]

/-- Claim C9.  For every raw dataset string assembled as a comma-separated
list of allow-listed names, each with arbitrary surrounding whitespace,
`get_target_datasets` returns exactly the whitespace-trimmed, non-empty
entries — the bare names — in their original order. -/
theorem get_target_datasets_spec
    (entries : List (List Char × String × List Char))
    (hent : ∀ e ∈ entries,
      (∀ c ∈ e.1, pyIsSpace c = true) ∧ (∀ c ∈ e.2.2, pyIsSpace c = true) ∧
      e.2.1 ∈ VALID_ZONE_DATASETS) :
    get_target_datasets (String.mk (List.intercalate [Char.ofNat 44]
      (entries.map (fun e => e.1 ++ e.2.1.data ++ e.2.2)))) =
    entries.map (fun e => e.2.1) := by
  cases entries with
  | nil => rfl
  | cons e es =>
    have hsplit : (List.intercalate [Char.ofNat 44] ((e :: es).map
        (fun e => e.1 ++ e.2.1.data ++ e.2.2))).splitOn (Char.ofNat 44) =
        (e :: es).map (fun e => e.1 ++ e.2.1.data ++ e.2.2) := by
      apply List.splitOn_intercalate
      · intro l hl
        obtain ⟨x, hx, rfl⟩ := List.mem_map.mp hl
        obtain ⟨hp, hq, hv⟩ := hent x hx
        obtain ⟨_, hnc, _, _⟩ := valid_dataset_clean x.2.1 hv
        intro hmem
        rcases List.mem_append.mp hmem with hm | hm
        · rcases List.mem_append.mp hm with hm2 | hm2
          · exact pyIsSpace_char_comma _ (hp _ hm2) rfl
          · exact hnc hm2
        · exact pyIsSpace_char_comma _ (hq _ hm) rfl
      · exact (List.cons_ne_nil _ _)
    unfold get_target_datasets
    rw [show (String.mk (List.intercalate [Char.ofNat 44] ((e :: es).map
      (fun e => e.1 ++ e.2.1.data ++ e.2.2)))).data =
      List.intercalate [Char.ofNat 44] ((e :: es).map
        (fun e => e.1 ++ e.2.1.data ++ e.2.2)) from rfl]
    rw [show ((List.intercalate [Char.ofNat 44] ((e :: es).map
        (fun e => e.1 ++ e.2.1.data ++ e.2.2))).splitOn (Char.ofNat 44) :
        List (List Char)) = _ from hsplit]
    exact strip_filter_map (e :: es) hent

/-- Claim C9 (witness): two allow-listed names with mixed padding. -/
theorem get_target_datasets_spec_witness :
    (∀ e ∈ ([([Char.ofNat 32], "http_requests", [Char.ofNat 32, Char.ofNat 9]),
             ([], "dns_logs", [])] : List (List Char × String × List Char)),
      (∀ c ∈ e.1, pyIsSpace c = true) ∧ (∀ c ∈ e.2.2, pyIsSpace c = true) ∧
      e.2.1 ∈ VALID_ZONE_DATASETS) ∧
    get_target_datasets (String.mk (List.intercalate [Char.ofNat 44]
      (([([Char.ofNat 32], "http_requests", [Char.ofNat 32, Char.ofNat 9]),
         ([], "dns_logs", [])] : List (List Char × String × List Char)).map
        (fun e => e.1 ++ e.2.1.data ++ e.2.2)))) =
    ["http_requests", "dns_logs"] := by
  have hh : (∀ e ∈ ([([Char.ofNat 32], "http_requests", [Char.ofNat 32, Char.ofNat 9]),
      ([], "dns_logs", [])] : List (List Char × String × List Char)),
      (∀ c ∈ e.1, pyIsSpace c = true) ∧ (∀ c ∈ e.2.2, pyIsSpace c = true) ∧
      e.2.1 ∈ VALID_ZONE_DATASETS) := by decide
  exact ⟨hh, (get_target_datasets_spec _ hh).trans (by decide)⟩

end Logpush
